import Mathlib

/-!
Verification of the market-health scoring engine.

Shallow embedding of the TypeScript sources: decimal strings holding prices
and quantities are modelled as exact rationals (the parseFloat at each use
site becomes the identity), `Date.now()` becomes an explicit `now : ℤ`
parameter (epoch milliseconds), and `Math.log10` / `Math.sqrt` become
`Real.logb 10` / `Real.sqrt`.  The `timestamp` field that each metrics
object copies from `Date.now()` is omitted, as are logging calls: both are
effects, not data the engine reads.  JavaScript `Math.round` is
`round = ⌊x + 1/2⌋`, which is exactly Mathlib's `round`.
-/

namespace MarketHealth

/-- One order-book price level (src/types: PriceLevel).  `price` and
`quantity` are decimal strings in the source, parsed with `parseFloat`
wherever they are used; they are modelled as exact rationals. -/
structure PriceLevel where
  price : ℚ
  quantity : ℚ
  timestamp : ℤ
deriving DecidableEq

/-- Order-book snapshot (src/types: OrderbookData). -/
structure OrderbookData where
  buys : List PriceLevel
  sells : List PriceLevel
  sequence : ℕ
deriving DecidableEq

/-- Liquidity metrics (src/types: LiquidityMetrics), minus the
`timestamp` effect field. -/
structure LiquidityMetrics where
  score : ℤ
  bidDepth : ℚ
  askDepth : ℚ
  totalDepth : ℚ
  depth1Percent : ℚ
  depth5Percent : ℚ
  spread : ℚ
  spreadPercent : ℚ
  midPrice : ℚ
deriving DecidableEq

namespace LiquidityService

/-- The price of the first level of a book side, or 0 when the side is
empty: the source's `side[0] ? parseFloat(side[0].price) : 0`. -/
def headPrice (levels : List PriceLevel) : ℚ :=
  match levels with
  | [] => 0
  | l :: _ => l.price

/-- LiquidityService.calculateMidPrice: best bid/ask average, 0 if either
side is empty (a missing level parses as 0). -/
def calculateMidPrice (orderbook : OrderbookData) : ℚ :=
  let bestBid := headPrice orderbook.buys
  let bestAsk := headPrice orderbook.sells
  if bestBid = 0 ∨ bestAsk = 0 then 0 else (bestBid + bestAsk) / 2

/-- LiquidityService.calculateSpread: |bestAsk − bestBid|, with a missing
level parsed as 0. -/
def calculateSpread (orderbook : OrderbookData) : ℚ :=
  let bestBid := headPrice orderbook.buys
  let bestAsk := headPrice orderbook.sells
  |bestAsk - bestBid|

/-- LiquidityService.calculateDepth: sum of all quantities on one side. -/
def calculateDepth (levels : List PriceLevel) : ℚ :=
  levels.foldl (fun sum level => sum + level.quantity) 0

/-- LiquidityService.calculateDepthAtPercent: quantities on levels priced
within `percent` of the mid price (bids at or above the lower bound, asks
at or below the upper bound). -/
def calculateDepthAtPercent (orderbook : OrderbookData) (midPrice percent : ℚ) : ℚ :=
  let upperBound := midPrice * (1 + percent)
  let lowerBound := midPrice * (1 - percent)
  let bidDepth :=
    ((orderbook.buys.filter (fun level => lowerBound ≤ level.price)).foldl
      (fun sum level => sum + level.quantity) 0)
  let askDepth :=
    ((orderbook.sells.filter (fun level => level.price ≤ upperBound)).foldl
      (fun sum level => sum + level.quantity) 0)
  bidDepth + askDepth

/-- LiquidityService.calculateLiquidityScore: 40% inverse-linear spread
penalty, 30%/15%/15% log-scaled depth terms, clamped to [0,100] and
rounded. -/
noncomputable def calculateLiquidityScore
    (totalDepth spreadPercent depth1Percent depth5Percent : ℚ) : ℤ :=
  let spreadScore : ℝ := max 0 (100 - (spreadPercent : ℝ) * 20)
  let depthScore : ℝ := min 100 (Real.logb 10 ((totalDepth : ℝ) + 1) * 20)
  let depth1Score : ℝ := min 100 (Real.logb 10 ((depth1Percent : ℝ) + 1) * 25)
  let depth5Score : ℝ := min 100 (Real.logb 10 ((depth5Percent : ℝ) + 1) * 20)
  let totalScore : ℝ :=
    spreadScore * 0.4 + depthScore * 0.3 + depth1Score * 0.15 + depth5Score * 0.15
  round (max 0 (min 100 totalScore))

/-- LiquidityService.calculateLiquidity: the full metrics pipeline. -/
noncomputable def calculateLiquidity (orderbook : OrderbookData) : LiquidityMetrics :=
  let midPrice := calculateMidPrice orderbook
  let spread := calculateSpread orderbook
  let spreadPercent := if 0 < midPrice then spread / midPrice * 100 else 0
  let bidDepth := calculateDepth orderbook.buys
  let askDepth := calculateDepth orderbook.sells
  let totalDepth := bidDepth + askDepth
  let depth1Percent := calculateDepthAtPercent orderbook midPrice 0.01
  let depth5Percent := calculateDepthAtPercent orderbook midPrice 0.05
  let score := calculateLiquidityScore totalDepth spreadPercent depth1Percent depth5Percent
  { score := score
    bidDepth := bidDepth
    askDepth := askDepth
    totalDepth := totalDepth
    depth1Percent := depth1Percent
    depth5Percent := depth5Percent
    spread := spread
    spreadPercent := spreadPercent
    midPrice := midPrice }

/-- The weighted sum of the three logarithmic depth terms of
`calculateLiquidityScore` (weights 30/15/15), without the spread term. -/
noncomputable def depthTermsWeighted (totalDepth depth1Percent depth5Percent : ℚ) : ℝ :=
  min 100 (Real.logb 10 ((totalDepth : ℝ) + 1) * 20) * 0.3 +
    min 100 (Real.logb 10 ((depth1Percent : ℝ) + 1) * 25) * 0.15 +
    min 100 (Real.logb 10 ((depth5Percent : ℝ) + 1) * 20) * 0.15

/-- The liquidity score the spec's degenerate-book sentence asserts: the
weighted sum of the three depth terms alone, with no contribution tied to
spread (clamped and rounded like the source's score).  This follows the
spec's words, for comparison against `calculateLiquidityScore`. -/
noncomputable def specDepthOnlyScore (totalDepth depth1Percent depth5Percent : ℚ) : ℤ :=
  round (max 0 (min 100 (depthTermsWeighted totalDepth depth1Percent depth5Percent)))

end LiquidityService

/-- One executed trade (src/types: Trade).  Only the fields the analyzers
and the stream store read numerically are modelled; the string identifier
fields (order hash, subaccount, market id, fee data) are opaque to the
engine and omitted. -/
structure Trade where
  executionPrice : ℚ
  executionQuantity : ℚ
  executedAt : ℤ
deriving DecidableEq

/-- Volatility level (src/types: VolatilityMetrics.level). -/
inductive VolLevel where
  | LOW
  | MODERATE
  | HIGH
  | EXTREME
deriving DecidableEq

/-- Volatility metrics (src/types: VolatilityMetrics), minus the
`timestamp` effect field.  `standardDeviation` involves `Math.sqrt`, so it
and the quantities derived from it live in ℝ. -/
structure VolatilityMetrics where
  score : ℤ
  volatility : ℝ
  volatilityPercent : ℝ
  level : VolLevel
  priceChanges : List ℚ
  standardDeviation : ℝ
  meanPrice : ℚ

namespace VolatilityService

/-- VolatilityService.calculatePriceChanges: percent deltas between
consecutive prices. -/
def calculatePriceChanges (prices : List ℚ) : List ℚ :=
  (prices.zip prices.tail).map (fun pq => (pq.2 - pq.1) / pq.1 * 100)

/-- VolatilityService.calculateMean. -/
def calculateMean (values : List ℚ) : ℚ :=
  if values.length = 0 then 0
  else values.foldl (fun acc val => acc + val) 0 / values.length

/-- VolatilityService.calculateStandardDeviation: square root of the
population variance (mean of squared deviations). -/
noncomputable def calculateStandardDeviation (values : List ℚ) (mean : ℚ) : ℝ :=
  if values.length = 0 then 0
  else Real.sqrt ((calculateMean (values.map (fun value => (value - mean) ^ 2)) : ℚ) : ℝ)

/-- VolatilityService.classifyVolatilityLevel. -/
noncomputable def classifyVolatilityLevel (volatilityPercent : ℝ) : VolLevel :=
  if volatilityPercent < 1 then VolLevel.LOW
  else if volatilityPercent < 3 then VolLevel.MODERATE
  else if volatilityPercent < 7 then VolLevel.HIGH
  else VolLevel.EXTREME

/-- VolatilityService.calculateVolatilityScore: piecewise-linear decline per
level, clamped to [0,100] and rounded.  The source's switch has an
unreachable default branch (score 50) for level strings outside the four
cases; the inductive level type makes it vanish. -/
noncomputable def calculateVolatilityScore (volatilityPercent : ℝ) (level : VolLevel) : ℤ :=
  let score : ℝ :=
    match level with
    | VolLevel.LOW => 100 - volatilityPercent * 10
    | VolLevel.MODERATE => 80 - (volatilityPercent - 1) * 15
    | VolLevel.HIGH => 50 - (volatilityPercent - 3) * 8
    | VolLevel.EXTREME => max 0 (30 - (volatilityPercent - 7) * 3)
  round (max 0 (min 100 score))

/-- VolatilityService.getDefaultMetrics: the zeroed default returned when
no trade falls inside the window. -/
def getDefaultMetrics : VolatilityMetrics :=
  { score := 0
    volatility := 0
    volatilityPercent := 0
    level := VolLevel.LOW
    priceChanges := []
    standardDeviation := 0
    meanPrice := 0 }

/-- VolatilityService.calculateVolatility: filter trades to the window
ending at `now`, then derive mean, standard deviation and score. -/
noncomputable def calculateVolatility
    (trades : List Trade) (windowMinutes : ℕ) (now : ℤ) : VolatilityMetrics :=
  let windowMs : ℤ := windowMinutes * 60 * 1000
  let cutoffTime := now - windowMs
  let recentTrades := trades.filter (fun trade => cutoffTime ≤ trade.executedAt)
  if recentTrades.length = 0 then getDefaultMetrics
  else
    let prices := recentTrades.map (fun t => t.executionPrice)
    let priceChanges := calculatePriceChanges prices
    let meanPrice := calculateMean prices
    let standardDeviation := calculateStandardDeviation prices meanPrice
    let volatility := standardDeviation
    let volatilityPercent : ℝ :=
      if 0 < meanPrice then volatility / (meanPrice : ℝ) * 100 else 0
    let level := classifyVolatilityLevel volatilityPercent
    let score := calculateVolatilityScore volatilityPercent level
    { score := score
      volatility := volatility
      volatilityPercent := volatilityPercent
      level := level
      priceChanges := priceChanges
      standardDeviation := standardDeviation
      meanPrice := meanPrice }

end VolatilityService

/-- Volume metrics (src/types: VolumeMetrics), minus the `timestamp`
effect field.  Only the structure is needed here: the aggregators read
`score`, `tradeCount` and `volumeChange`. -/
structure VolumeMetrics where
  score : ℤ
  volume24h : ℚ
  volumeChange : ℚ
  tradeCount : ℕ
  averageTradeSize : ℚ
deriving DecidableEq

/-- Health status tier (src/types: HealthScore.status). -/
inductive HealthStatus where
  | HEALTHY
  | WARNING
  | CRITICAL
deriving DecidableEq

/-- The four weighted component scores of the health aggregator
(HealthService's `components` record). -/
structure HealthComponents where
  liquidity : ℚ
  volatility : ℚ
  volume : ℚ
  spread : ℚ
deriving DecidableEq

/-- Overall health score (src/types: HealthScore), minus the `timestamp`
effect field. -/
structure HealthScore where
  score : ℤ
  status : HealthStatus
  components : HealthComponents
  recommendation : String
deriving DecidableEq

namespace HealthService

/-- HealthService.calculateSpreadScore: fixed thresholds on spreadPercent. -/
def calculateSpreadScore (spreadPercent : ℚ) : ℚ :=
  if spreadPercent < 0.1 then 100
  else if spreadPercent < 0.5 then 80
  else if spreadPercent < 1.0 then 60
  else if spreadPercent < 2.0 then 40
  else if spreadPercent < 5.0 then 20
  else 10

/-- HealthService.calculateOverallScore: weighted sum 35/25/25/15, clamped
to [0,100] and rounded. -/
def calculateOverallScore (components : HealthComponents) : ℤ :=
  let weightedScore :=
    components.liquidity * 0.35 + components.volatility * 0.25 +
      components.volume * 0.25 + components.spread * 0.15
  round (max 0 (min 100 weightedScore))

/-- HealthService.determineStatus. -/
def determineStatus (score : ℤ) : HealthStatus :=
  if 70 ≤ score then HealthStatus.HEALTHY
  else if 40 ≤ score then HealthStatus.WARNING
  else HealthStatus.CRITICAL

/-- HealthService.generateRecommendation: template selected by status with
an itemized list of weak components. -/
def generateRecommendation (status : HealthStatus) (components : HealthComponents)
    (volatilityLevel : VolLevel) : String :=
  let issues : List String :=
    (if components.liquidity < 50 then [("low liquidity" : String)] else []) ++
    (if components.volatility < 50 then [("high volatility" : String)] else []) ++
    (if components.volume < 50 then [("low volume" : String)] else []) ++
    (if components.spread < 50 then [("wide spread" : String)] else [])
  match status with
  | HealthStatus.HEALTHY =>
    if volatilityLevel = VolLevel.EXTREME then
      "✅ Market is healthy but volatility is extreme. Use limit orders and monitor closely."
    else
      "✅ Market is healthy and suitable for trading. Normal trading conditions apply."
  | HealthStatus.WARNING =>
    let issueList :=
      if issues.length > 0 then " (" ++ String.intercalate (", ") issues ++ ")" else ""
    "⚠️ Exercise caution" ++ issueList ++
      ". Consider using limit orders and smaller position sizes."
  | HealthStatus.CRITICAL =>
    let issueList :=
      if issues.length > 0 then " Issues: " ++ String.intercalate (", ") issues ++ "." else ""
    "🔴 High risk market conditions." ++ issueList ++
      " Avoid trading or use extreme caution with small positions and tight stop losses."

/-- HealthService.calculateHealth: components from the three analyzer
outputs, then overall score, status and recommendation. -/
def calculateHealth (liquidity : LiquidityMetrics) (volatility : VolatilityMetrics)
    (volume : VolumeMetrics) : HealthScore :=
  let components : HealthComponents :=
    { liquidity := (liquidity.score : ℚ)
      volatility := (volatility.score : ℚ)
      volume := (volume.score : ℚ)
      spread := calculateSpreadScore liquidity.spreadPercent }
  let score := calculateOverallScore components
  let status := determineStatus score
  let recommendation := generateRecommendation status components volatility.level
  { score := score
    status := status
    components := components
    recommendation := recommendation }

end HealthService

/-- Risk level tier (src/types: RiskMetrics.level). -/
inductive RiskLevel where
  | LOW
  | MEDIUM
  | HIGH
  | EXTREME
deriving DecidableEq

/-- The four risk factors of the risk aggregator (RiskService's `factors`
record). -/
structure RiskFactors where
  liquidityRisk : ℚ
  volatilityRisk : ℚ
  spreadRisk : ℚ
  volumeRisk : ℚ
deriving DecidableEq

/-- Risk metrics (src/types: RiskMetrics), minus the `timestamp` effect
field. -/
structure RiskMetrics where
  score : ℤ
  level : RiskLevel
  factors : RiskFactors
  warnings : List String
deriving DecidableEq

namespace RiskService

/-- RiskService.calculateLiquidityRisk: inverted liquidity score. -/
def calculateLiquidityRisk (liquidity : LiquidityMetrics) : ℚ :=
  100 - (liquidity.score : ℚ)

/-- RiskService.calculateVolatilityRisk: inverted volatility score. -/
def calculateVolatilityRisk (volatility : VolatilityMetrics) : ℚ :=
  100 - (volatility.score : ℚ)

/-- RiskService.calculateSpreadRisk: absolute spread-percent thresholds. -/
def calculateSpreadRisk (liquidity : LiquidityMetrics) : ℚ :=
  let spreadPercent := liquidity.spreadPercent
  if spreadPercent < 0.1 then 10
  else if spreadPercent < 0.5 then 30
  else if spreadPercent < 1.0 then 50
  else if spreadPercent < 2.0 then 70
  else 90

/-- RiskService.calculateVolumeRisk: inverted volume score. -/
def calculateVolumeRisk (volume : VolumeMetrics) : ℚ :=
  100 - (volume.score : ℚ)

/-- RiskService.calculateOverallRiskScore: weighted sum 35/30/20/15,
clamped to [0,100] and rounded. -/
def calculateOverallRiskScore (factors : RiskFactors) : ℤ :=
  let weightedScore :=
    factors.liquidityRisk * 0.35 + factors.volatilityRisk * 0.30 +
      factors.spreadRisk * 0.20 + factors.volumeRisk * 0.15
  round (max 0 (min 100 weightedScore))

/-- RiskService.classifyRiskLevel. -/
def classifyRiskLevel (score : ℤ) : RiskLevel :=
  if score < 25 then RiskLevel.LOW
  else if score < 50 then RiskLevel.MEDIUM
  else if score < 75 then RiskLevel.HIGH
  else RiskLevel.EXTREME

/-- RiskService.generateWarnings: ordered, rule-based warning strings. -/
def generateWarnings (factors : RiskFactors) (liquidity : LiquidityMetrics)
    (volatility : VolatilityMetrics) (volume : VolumeMetrics) : List String :=
  (if 70 < factors.liquidityRisk then
    [("⚠️ Very low liquidity - high slippage risk" : String)]
  else if 50 < factors.liquidityRisk then
    [("⚠️ Low liquidity - moderate slippage risk" : String)]
  else []) ++
  (if 2.0 < liquidity.spreadPercent then
    [("⚠️ Extremely wide spread - poor pricing" : String)]
  else if 1.0 < liquidity.spreadPercent then
    [("⚠️ Wide spread - high transaction costs" : String)]
  else []) ++
  (if volatility.level = VolLevel.EXTREME then
    [("🔴 Extreme price volatility detected" : String)]
  else if volatility.level = VolLevel.HIGH then
    [("⚠️ High price volatility" : String)]
  else []) ++
  (if volume.tradeCount < 10 then
    [("⚠️ Very low trading activity" : String)]
  else []) ++
  (if volume.volumeChange < -50 then
    [("📉 Significant volume decrease" : String)]
  else []) ++
  (if liquidity.depth1Percent < 1000 then
    [("⚠️ Shallow orderbook depth" : String)]
  else [])

/-- RiskService.calculateRisk: factors, overall score, level, warnings. -/
def calculateRisk (liquidity : LiquidityMetrics) (volatility : VolatilityMetrics)
    (volume : VolumeMetrics) : RiskMetrics :=
  let factors : RiskFactors :=
    { liquidityRisk := calculateLiquidityRisk liquidity
      volatilityRisk := calculateVolatilityRisk volatility
      spreadRisk := calculateSpreadRisk liquidity
      volumeRisk := calculateVolumeRisk volume }
  let riskScore := calculateOverallRiskScore factors
  let level := classifyRiskLevel riskScore
  let warnings := generateWarnings factors liquidity volatility volume
  { score := riskScore
    level := level
    factors := factors
    warnings := warnings }

end RiskService

/-- A cache entry (src/utils/cache: CacheEntry).  `timestamp` is the
`Date.now()` recorded at `set` time; `ttl` is in milliseconds. -/
structure CacheEntry (V : Type) where
  data : V
  timestamp : ℤ
  ttl : ℤ
deriving DecidableEq

/-- The mutable state of the Cache class: the key→entry map and the
hit/miss/set counters. -/
structure CacheState (V : Type) where
  store : String → Option (CacheEntry V)
  hits : ℕ
  misses : ℕ
  sets : ℕ

namespace Cache

/-- A fresh cache: empty map, zeroed counters. -/
def empty (V : Type) : CacheState V :=
  { store := fun _ => none, hits := 0, misses := 0, sets := 0 }

/-- Cache.set: store the entry with the current time and the ttl in
milliseconds, and count the set. -/
def set (s : CacheState V) (key : String) (data : V) (ttlSeconds : ℤ) (now : ℤ) :
    CacheState V :=
  { s with
    store := fun k => if k = key then some ⟨data, now, ttlSeconds * 1000⟩ else s.store k
    sets := s.sets + 1 }

/-- Cache.get: miss on an absent key; passive expiry when the entry's age
strictly exceeds its ttl (the entry is deleted and the miss counted);
otherwise a hit returning the stored data. -/
def get (s : CacheState V) (key : String) (now : ℤ) : Option V × CacheState V :=
  match s.store key with
  | none => (none, { s with misses := s.misses + 1 })
  | some entry =>
    if entry.ttl < now - entry.timestamp then
      (none,
        { s with
          store := fun k => if k = key then none else s.store k
          misses := s.misses + 1 })
    else
      (some entry.data, { s with hits := s.hits + 1 })

end Cache

namespace StreamStore

/-- The StreamStore state (StreamingService's in-memory store): two maps
keyed by market id. -/
structure State where
  orderbooks : String → Option OrderbookData
  trades : String → Option (List Trade)

/-- An empty StreamStore. -/
def emptyState : State :=
  { orderbooks := fun _ => none, trades := fun _ => none }

/-- StreamStore.MAX_TRADES_PER_MARKET. -/
def MAX_TRADES_PER_MARKET : ℕ := 100

/-- StreamStore.setOrderbook: store the snapshot for the market. -/
def setOrderbook (s : State) (marketId : String) (orderbook : OrderbookData) : State :=
  { s with
    orderbooks := fun m => if m = marketId then some orderbook else s.orderbooks m }

/-- StreamStore.getOrderbook. -/
def getOrderbook (s : State) (marketId : String) : Option OrderbookData :=
  s.orderbooks marketId

/-- StreamStore.addTrade: prepend the trade and drop the oldest entry when
the bounded history overflows. -/
def addTrade (s : State) (marketId : String) (trade : Trade) : State :=
  let existing := (s.trades marketId).getD []
  let pushed := trade :: existing
  let bounded := if MAX_TRADES_PER_MARKET < pushed.length then pushed.dropLast else pushed
  { s with trades := fun m => if m = marketId then some bounded else s.trades m }

/-- StreamStore.getTrades. -/
def getTrades (s : State) (marketId : String) : List Trade :=
  (s.trades marketId).getD []

end StreamStore

namespace CompareRoute

/-- The compare endpoint's cache key (src/routes/compare.routes.ts):
the comma-joined, sorted market-id list, behind the fixed kind tag.
JavaScript's in-place Array.sort is modelled by mergeSort under the
string order. -/
def cacheKey (marketIds : List String) : String :=
  "compare:" ++ String.intercalate (",") (marketIds.mergeSort (fun a b => a ≤ b))

end CompareRoute

/-! Concrete inputs used by the counterexamples and witnesses. -/

/-- A degenerate book: no bids, one ask at price 20 with quantity 0. -/
def obEmptyBid : OrderbookData :=
  { buys := [], sells := [⟨20, 0, 0⟩], sequence := 1 }

/-- The spec's concrete scenario book: best bid 19.95 qty 100, best ask
20.05 qty 100. -/
def obScenario : OrderbookData :=
  { buys := [⟨19.95, 100, 0⟩], sells := [⟨20.05, 100, 0⟩], sequence := 1 }

/-- A book with one bid and no asks. -/
def obOnlyBid : OrderbookData :=
  { buys := [⟨10, 5, 0⟩], sells := [], sequence := 7 }

/-- Liquidity metrics with a perfect score and zero spread. -/
def liqPerfect : LiquidityMetrics :=
  { score := 100, bidDepth := 0, askDepth := 0, totalDepth := 0, depth1Percent := 0
    depth5Percent := 0, spread := 0, spreadPercent := 0, midPrice := 0 }

/-- Volatility metrics with a perfect score. -/
def volPerfect : VolatilityMetrics :=
  { score := 100, volatility := 0, volatilityPercent := 0, level := VolLevel.LOW
    priceChanges := [], standardDeviation := 0, meanPrice := 0 }

/-- Volume metrics with a perfect score. -/
def volumePerfect : VolumeMetrics :=
  { score := 100, volume24h := 0, volumeChange := 0, tradeCount := 0, averageTradeSize := 0 }

/-- A market identifier. -/
def mkt : String := "m"

/-- A cache key. -/
def ck : String := "k"

/-- A snapshot with sequence 5. -/
def obSeq5 : OrderbookData := { buys := [], sells := [], sequence := 5 }

/-- A snapshot with sequence 3 (stale relative to `obSeq5`). -/
def obSeq3 : OrderbookData := { buys := [], sells := [], sequence := 3 }

/-- A store currently holding the sequence-5 snapshot for market `mkt`. -/
def storeWithSeq5 : StreamStore.State :=
  StreamStore.setOrderbook StreamStore.emptyState mkt obSeq5

/-- A trade timestamp translation: shift `executedAt` by a constant,
leaving prices and quantities unchanged. -/
def shiftTrade (c : ℤ) (t : Trade) : Trade :=
  { t with executedAt := t.executedAt + c }

/-- A trade just outside the 60-minute window ending at `nowC7`. -/
def tEarly : Trade := { executionPrice := 10, executionQuantity := 1, executedAt := 6399999 }

/-- A trade at the window's end. -/
def tLate : Trade := { executionPrice := 20, executionQuantity := 1, executedAt := 10000000 }

/-- Two trades, one just outside and one inside the window. -/
def tradesC7 : List Trade := [tEarly, tLate]

/-- The reference clock for the volatility counterexample. -/
def nowC7 : ℤ := 10000000

end MarketHealth

/-! ## Theorems -/

namespace MarketHealth

namespace LiquidityService

theorem calculateLiquidity_midPrice (orderbook : OrderbookData) :
    (calculateLiquidity orderbook).midPrice = calculateMidPrice orderbook := rfl

theorem calculateLiquidity_spread (orderbook : OrderbookData) :
    (calculateLiquidity orderbook).spread = calculateSpread orderbook := rfl

theorem calculateLiquidity_spreadPercent (orderbook : OrderbookData) :
    (calculateLiquidity orderbook).spreadPercent =
      (if 0 < calculateMidPrice orderbook then
        calculateSpread orderbook / calculateMidPrice orderbook * 100 else 0) := rfl

theorem calculateLiquidity_bidDepth (orderbook : OrderbookData) :
    (calculateLiquidity orderbook).bidDepth = calculateDepth orderbook.buys := rfl

theorem calculateLiquidity_totalDepth (orderbook : OrderbookData) :
    (calculateLiquidity orderbook).totalDepth =
      calculateDepth orderbook.buys + calculateDepth orderbook.sells := rfl

theorem calculateLiquidity_depth1Percent (orderbook : OrderbookData) :
    (calculateLiquidity orderbook).depth1Percent =
      calculateDepthAtPercent orderbook (calculateMidPrice orderbook) 0.01 := rfl

theorem calculateLiquidity_depth5Percent (orderbook : OrderbookData) :
    (calculateLiquidity orderbook).depth5Percent =
      calculateDepthAtPercent orderbook (calculateMidPrice orderbook) 0.05 := rfl

theorem calculateLiquidity_score (orderbook : OrderbookData) :
    (calculateLiquidity orderbook).score =
      calculateLiquidityScore (calculateLiquidity orderbook).totalDepth
        (calculateLiquidity orderbook).spreadPercent
        (calculateLiquidity orderbook).depth1Percent
        (calculateLiquidity orderbook).depth5Percent := rfl

/-- With either side empty, the best price on that side parses as 0 and
the mid price degenerates to 0. -/
theorem calculateMidPrice_of_empty {orderbook : OrderbookData}
    (h : orderbook.buys = [] ∨ orderbook.sells = []) :
    calculateMidPrice orderbook = 0 := by
  rcases h with h | h <;> simp [calculateMidPrice, headPrice, h]

/-- At zero spread percent, the spread term of the liquidity score is
pinned at its maximum 100 and contributes exactly 40 to the weighted
sum. -/
theorem calculateLiquidityScore_of_spreadPercent_zero
    (totalDepth depth1Percent depth5Percent : ℚ) :
    calculateLiquidityScore totalDepth 0 depth1Percent depth5Percent =
      round (max 0 (min 100
        (40 + depthTermsWeighted totalDepth depth1Percent depth5Percent))) := by
  unfold calculateLiquidityScore depthTermsWeighted
  norm_num
  ring_nf

/-- With mid price 0 and positive ask prices, the within-percent depth
filter keeps every (nonnegatively priced) bid and drops every ask. -/
theorem calculateDepthAtPercent_of_midPrice_zero (orderbook : OrderbookData) (percent : ℚ)
    (hb : ∀ l ∈ orderbook.buys, 0 ≤ l.price) (hs : ∀ l ∈ orderbook.sells, 0 < l.price) :
    calculateDepthAtPercent orderbook 0 percent = calculateDepth orderbook.buys := by
  unfold calculateDepthAtPercent calculateDepth
  have h1 : orderbook.buys.filter (fun level => decide ((0 : ℚ) ≤ level.price)) =
      orderbook.buys := by
    apply List.filter_eq_self.mpr
    intro a ha
    simpa using hb a ha
  have h2 : orderbook.sells.filter (fun level => decide (level.price ≤ (0 : ℚ))) =
      [] := by
    apply List.filter_eq_nil_iff.mpr
    intro a ha
    simpa using (hs a ha).not_le
  simp [h1, h2]

end LiquidityService

open LiquidityService in
/-- C1, counterexample: on the book with empty buys and a single ask at
price 20 (quantity 0), the claim fails: `spread` is 20, not 0, and the
score is not the depth-only weighted sum (the spread term contributes its
maximum). -/
theorem C1_claim_counterexample :
    obEmptyBid.buys = [] ∧
      ¬((calculateLiquidity obEmptyBid).midPrice = 0 ∧
        (calculateLiquidity obEmptyBid).spread = 0 ∧
        (calculateLiquidity obEmptyBid).score =
          specDepthOnlyScore (calculateLiquidity obEmptyBid).totalDepth
            (calculateLiquidity obEmptyBid).depth1Percent
            (calculateLiquidity obEmptyBid).depth5Percent) := by
  refine ⟨rfl, ?_⟩
  rintro ⟨-, h2, -⟩
  rw [calculateLiquidity_spread] at h2
  norm_num [calculateSpread, headPrice, obEmptyBid] at h2

open LiquidityService in
/-- C1, amended: for every snapshot with an empty side, `calculateLiquidity`
returns `midPrice = 0`, `spreadPercent = 0`, `spread` equal to the absolute
difference of the parsed best prices (the surviving side's best price, not
necessarily 0), and a score in which the spread term is pinned at its
maximum, contributing the constant 40 on top of the three weighted depth
terms. -/
theorem C1_amended_degenerate_book (orderbook : OrderbookData)
    (h : orderbook.buys = [] ∨ orderbook.sells = []) :
    (calculateLiquidity orderbook).midPrice = 0 ∧
      (calculateLiquidity orderbook).spread =
        |headPrice orderbook.sells - headPrice orderbook.buys| ∧
      (calculateLiquidity orderbook).spreadPercent = 0 ∧
      (calculateLiquidity orderbook).score =
        round (max 0 (min 100
          (40 + depthTermsWeighted (calculateLiquidity orderbook).totalDepth
            (calculateLiquidity orderbook).depth1Percent
            (calculateLiquidity orderbook).depth5Percent))) := by
  have hmid : calculateMidPrice orderbook = 0 := calculateMidPrice_of_empty h
  have hsp : (calculateLiquidity orderbook).spreadPercent = 0 := by
    rw [calculateLiquidity_spreadPercent, hmid]
    norm_num
  refine ⟨by rw [calculateLiquidity_midPrice, hmid], rfl, hsp, ?_⟩
  rw [calculateLiquidity_score, hsp, calculateLiquidityScore_of_spreadPercent_zero]

open LiquidityService in
/-- C1, witness for the amended theorem at the concrete degenerate book. -/
theorem C1_amended_degenerate_book_witness :
    (calculateLiquidity obEmptyBid).midPrice = 0 ∧
      (calculateLiquidity obEmptyBid).spread =
        |headPrice obEmptyBid.sells - headPrice obEmptyBid.buys| ∧
      (calculateLiquidity obEmptyBid).spreadPercent = 0 ∧
      (calculateLiquidity obEmptyBid).score =
        round (max 0 (min 100
          (40 + depthTermsWeighted (calculateLiquidity obEmptyBid).totalDepth
            (calculateLiquidity obEmptyBid).depth1Percent
            (calculateLiquidity obEmptyBid).depth5Percent))) :=
  C1_amended_degenerate_book obEmptyBid (Or.inl rfl)

open LiquidityService in
/-- C2, counterexample: on the bid 19.95/100, ask 20.05/100 book the
pipeline does give midPrice 20, spread 0.10, spreadPercent 0.5, but
spreadPercent 0.5 falls on the threshold boundary: `calculateSpreadScore`
returns 60 (not 80) and `calculateSpreadRisk` returns 50 (not 30). -/
theorem C2_claim_counterexample :
    ¬((calculateLiquidity obScenario).midPrice = 20 ∧
      (calculateLiquidity obScenario).spread = 0.1 ∧
      (calculateLiquidity obScenario).spreadPercent = 0.5 ∧
      HealthService.calculateSpreadScore (calculateLiquidity obScenario).spreadPercent = 80 ∧
      RiskService.calculateSpreadRisk (calculateLiquidity obScenario) = 30) := by
  rintro ⟨-, -, h3, h4, -⟩
  rw [h3] at h4
  norm_num [HealthService.calculateSpreadScore] at h4

open LiquidityService in
/-- C2, amended: the concrete scenario yields midPrice 20, spread 0.10,
spreadPercent 0.5, and on that boundary value the health spread score is
60 and the spread risk is 50 (each strict `< 0.5` threshold just
misses). -/
theorem C2_amended_scenario :
    (calculateLiquidity obScenario).midPrice = 20 ∧
      (calculateLiquidity obScenario).spread = 0.1 ∧
      (calculateLiquidity obScenario).spreadPercent = 0.5 ∧
      HealthService.calculateSpreadScore (calculateLiquidity obScenario).spreadPercent = 60 ∧
      RiskService.calculateSpreadRisk (calculateLiquidity obScenario) = 50 := by
  have hsp : (calculateLiquidity obScenario).spreadPercent = 0.5 := by
    rw [calculateLiquidity_spreadPercent]
    norm_num [calculateSpread, calculateMidPrice, headPrice, obScenario, abs_of_nonneg]
  refine ⟨?_, ?_, hsp, ?_, ?_⟩
  · rw [calculateLiquidity_midPrice]
    norm_num [calculateMidPrice, headPrice, obScenario]
  · rw [calculateLiquidity_spread]
    norm_num [calculateSpread, headPrice, obScenario, abs_of_nonneg]
  · rw [hsp]
    norm_num [HealthService.calculateSpreadScore]
  · unfold RiskService.calculateSpreadRisk
    rw [hsp]
    norm_num

open LiquidityService in
/-- C10: whenever the computed mid price is 0 and prices are signed as in
real books (bids nonnegative, asks positive), both within-percent depths
equal the full bid depth — every bid passes the `price ≥ 0` filter and no
ask passes `price ≤ 0`; in particular both are 0 when buys is empty. -/
theorem C10_depth_at_midPrice_zero (orderbook : OrderbookData)
    (hb : ∀ l ∈ orderbook.buys, 0 ≤ l.price)
    (hs : ∀ l ∈ orderbook.sells, 0 < l.price)
    (hmid : (calculateLiquidity orderbook).midPrice = 0) :
    (calculateLiquidity orderbook).depth1Percent = (calculateLiquidity orderbook).bidDepth ∧
      (calculateLiquidity orderbook).depth5Percent = (calculateLiquidity orderbook).bidDepth ∧
      (orderbook.buys = [] →
        (calculateLiquidity orderbook).depth1Percent = 0 ∧
          (calculateLiquidity orderbook).depth5Percent = 0) := by
  rw [calculateLiquidity_midPrice] at hmid
  have h1 : (calculateLiquidity orderbook).depth1Percent = calculateDepth orderbook.buys := by
    rw [calculateLiquidity_depth1Percent, hmid]
    exact calculateDepthAtPercent_of_midPrice_zero orderbook 0.01 hb hs
  have h5 : (calculateLiquidity orderbook).depth5Percent = calculateDepth orderbook.buys := by
    rw [calculateLiquidity_depth5Percent, hmid]
    exact calculateDepthAtPercent_of_midPrice_zero orderbook 0.05 hb hs
  refine ⟨by rw [h1, calculateLiquidity_bidDepth], by rw [h5, calculateLiquidity_bidDepth], ?_⟩
  intro hempty
  rw [h1, h5, hempty]
  exact ⟨rfl, rfl⟩

open LiquidityService in
/-- C10, witness at the book with one bid and no asks: both depths equal
the bid depth 5. -/
theorem C10_depth_at_midPrice_zero_witness :
    (calculateLiquidity obOnlyBid).depth1Percent = (calculateLiquidity obOnlyBid).bidDepth ∧
      (calculateLiquidity obOnlyBid).depth5Percent = (calculateLiquidity obOnlyBid).bidDepth ∧
      (obOnlyBid.buys = [] →
        (calculateLiquidity obOnlyBid).depth1Percent = 0 ∧
          (calculateLiquidity obOnlyBid).depth5Percent = 0) :=
  C10_depth_at_midPrice_zero obOnlyBid
    (by intro l hl; simp [obOnlyBid] at hl; simp [hl])
    (by intro l hl; simp [obOnlyBid] at hl)
    (by rw [calculateLiquidity_midPrice]
        exact calculateMidPrice_of_empty (Or.inr rfl))

/-- C3: the risk score is not the complement of the health score: on the
all-perfect metrics triple, health is 100 but risk is 2 (the spread-risk
bucket never goes below 10), so riskScore ≠ 100 − healthScore there. -/
theorem C3_risk_not_complement_of_health :
    ∃ (liquidity : LiquidityMetrics) (volatility : VolatilityMetrics)
      (volume : VolumeMetrics),
      (RiskService.calculateRisk liquidity volatility volume).score ≠
        100 - (HealthService.calculateHealth liquidity volatility volume).score := by
  refine ⟨liqPerfect, volPerfect, volumePerfect, ?_⟩
  have hh : (HealthService.calculateHealth liqPerfect volPerfect volumePerfect).score = 100 := by
    show HealthService.calculateOverallScore _ = 100
    unfold HealthService.calculateOverallScore
    norm_num [HealthService.calculateSpreadScore, liqPerfect, volPerfect, volumePerfect]
  have hr : (RiskService.calculateRisk liqPerfect volPerfect volumePerfect).score = 2 := by
    show RiskService.calculateOverallRiskScore _ = 2
    unfold RiskService.calculateOverallRiskScore
    norm_num [RiskService.calculateLiquidityRisk, RiskService.calculateVolatilityRisk,
      RiskService.calculateSpreadRisk, RiskService.calculateVolumeRisk,
      liqPerfect, volPerfect, volumePerfect]
  rw [hh, hr]
  norm_num

/-- C4: the overall health score is monotone non-decreasing in each of the
four weighted components (weights 35/25/25/15, clamp to [0,100], round). -/
theorem C4_health_score_monotone (c₁ c₂ : HealthComponents)
    (hl : c₁.liquidity ≤ c₂.liquidity) (hv : c₁.volatility ≤ c₂.volatility)
    (hu : c₁.volume ≤ c₂.volume) (hs : c₁.spread ≤ c₂.spread) :
    HealthService.calculateOverallScore c₁ ≤ HealthService.calculateOverallScore c₂ := by
  unfold HealthService.calculateOverallScore
  rw [round_eq, round_eq]
  apply Int.floor_le_floor
  gcongr

/-- C4, witness: raising the liquidity component from 10 to 15 with the
other components fixed does not lower the overall score. -/
theorem C4_health_score_monotone_witness :
    HealthService.calculateOverallScore ⟨10, 20, 30, 40⟩ ≤
      HealthService.calculateOverallScore ⟨15, 20, 30, 40⟩ :=
  C4_health_score_monotone ⟨10, 20, 30, 40⟩ ⟨15, 20, 30, 40⟩
    (by norm_num) (by norm_num) (by norm_num) (by norm_num)

/-- C5, counterexample: `setOrderbook` has no sequence check.  Storing the
sequence-3 snapshot over the stored sequence-5 snapshot replaces it, so
the stored snapshot for the market is not unchanged. -/
theorem C5_claim_counterexample :
    obSeq3.sequence ≤ obSeq5.sequence ∧
      StreamStore.getOrderbook storeWithSeq5 mkt = some obSeq5 ∧
      StreamStore.getOrderbook (StreamStore.setOrderbook storeWithSeq5 mkt obSeq3) mkt ≠
        StreamStore.getOrderbook storeWithSeq5 mkt := by
  refine ⟨by norm_num [obSeq3, obSeq5], ?_, ?_⟩
  · simp [StreamStore.getOrderbook, StreamStore.setOrderbook, storeWithSeq5]
  · simp [StreamStore.getOrderbook, StreamStore.setOrderbook, storeWithSeq5, obSeq3, obSeq5]

/-- C5, amended: the live-data store applies every incoming snapshot
unconditionally (last write wins): even when the incoming sequence is
lower than or equal to the stored one, the stored snapshot afterwards is
the incoming one. -/
theorem C5_amended_set_unconditional (s : StreamStore.State) (marketId : String)
    (incoming current : OrderbookData)
    (_hcur : StreamStore.getOrderbook s marketId = some current)
    (_hseq : incoming.sequence ≤ current.sequence) :
    StreamStore.getOrderbook (StreamStore.setOrderbook s marketId incoming) marketId =
      some incoming := by
  simp [StreamStore.getOrderbook, StreamStore.setOrderbook]

/-- C5, witness: the stale sequence-3 write lands over the stored
sequence-5 snapshot. -/
theorem C5_amended_set_unconditional_witness :
    StreamStore.getOrderbook (StreamStore.setOrderbook storeWithSeq5 mkt obSeq3) mkt =
      some obSeq3 :=
  C5_amended_set_unconditional storeWithSeq5 mkt obSeq3 obSeq5
    (by simp [StreamStore.getOrderbook, StreamStore.setOrderbook, storeWithSeq5])
    (by norm_num [obSeq3, obSeq5])

/-- C6: when no trade's `executedAt` reaches the window cutoff (in
particular for the empty list), `calculateVolatility` returns exactly the
zeroed default metrics (score 0, level LOW, standard deviation 0, mean 0,
volatility percent 0, no price changes) and never fails. -/
theorem C6_volatility_empty_window (trades : List Trade) (windowMinutes : ℕ) (now : ℤ)
    (h : ∀ t ∈ trades, t.executedAt < now - (windowMinutes : ℤ) * 60 * 1000) :
    VolatilityService.calculateVolatility trades windowMinutes now =
      VolatilityService.getDefaultMetrics := by
  have hf : trades.filter
      (fun trade => decide (now - (windowMinutes : ℤ) * 60 * 1000 ≤ trade.executedAt)) = [] := by
    apply List.filter_eq_nil_iff.mpr
    intro a ha
    simpa using (h a ha).not_le
  simp only [VolatilityService.calculateVolatility, hf]
  rfl

/-- C6, witness: the empty trade list yields the default metrics. -/
theorem C6_volatility_empty_window_witness :
    VolatilityService.calculateVolatility [] 60 0 =
      VolatilityService.getDefaultMetrics :=
  C6_volatility_empty_window [] 60 0 (by simp)

/-- C7, counterexample: shifting both trades forward by 2 ms keeps the one
in-window trade inside the window, yet the mean price changes from 20 to
15, because the shift pulls the originally out-of-window trade into the
window. -/
theorem C7_claim_counterexample :
    (∀ t ∈ tradesC7, nowC7 - (60 : ℤ) * 60 * 1000 ≤ t.executedAt →
        nowC7 - (60 : ℤ) * 60 * 1000 ≤ t.executedAt + 2) ∧
      (VolatilityService.calculateVolatility (tradesC7.map (shiftTrade 2)) 60 nowC7).meanPrice ≠
        (VolatilityService.calculateVolatility tradesC7 60 nowC7).meanPrice := by
  constructor
  · intro t ht hin
    omega
  · have hl : (VolatilityService.calculateVolatility (tradesC7.map (shiftTrade 2)) 60
        nowC7).meanPrice = 15 := by
      norm_num [VolatilityService.calculateVolatility, VolatilityService.calculateMean,
        tradesC7, tEarly, tLate, nowC7, shiftTrade, List.filter]
    have hr : (VolatilityService.calculateVolatility tradesC7 60 nowC7).meanPrice = 20 := by
      norm_num [VolatilityService.calculateVolatility, VolatilityService.calculateMean,
        tradesC7, tEarly, tLate, nowC7, List.filter]
    rw [hl, hr]
    norm_num

/-- C7, amended: `calculateVolatility` is invariant under a time
translation of the trades whenever the shift preserves window membership
for every trade (in-window trades stay in and out-of-window trades stay
out): standard deviation, mean price and score are all unchanged. -/
theorem C7_amended_time_translation (trades : List Trade) (c : ℤ)
    (windowMinutes : ℕ) (now : ℤ)
    (h : ∀ t ∈ trades, (now - (windowMinutes : ℤ) * 60 * 1000 ≤ t.executedAt ↔
        now - (windowMinutes : ℤ) * 60 * 1000 ≤ t.executedAt + c)) :
    VolatilityService.calculateVolatility (trades.map (shiftTrade c)) windowMinutes now =
      VolatilityService.calculateVolatility trades windowMinutes now := by
  have key : (trades.map (shiftTrade c)).filter
      (fun trade => decide (now - (windowMinutes : ℤ) * 60 * 1000 ≤ trade.executedAt)) =
      (trades.filter
        (fun trade => decide (now - (windowMinutes : ℤ) * 60 * 1000 ≤ trade.executedAt))).map
        (shiftTrade c) := by
    rw [List.filter_map]
    congr 1
    apply List.filter_congr
    intro t ht
    simp only [Function.comp_apply, shiftTrade, decide_eq_decide]
    exact (h t ht).symm
  have hprices : ((trades.filter
      (fun trade => decide (now - (windowMinutes : ℤ) * 60 * 1000 ≤ trade.executedAt))).map
        (shiftTrade c)).map (fun t => t.executionPrice) =
      (trades.filter
        (fun trade => decide (now - (windowMinutes : ℤ) * 60 * 1000 ≤ trade.executedAt))).map
        (fun t => t.executionPrice) := by
    rw [List.map_map]
    apply List.map_congr_left
    intro t _
    simp [shiftTrade]
  simp only [VolatilityService.calculateVolatility, key, List.length_map, hprices]

/-- C7, witness for the amended theorem: shifting backward by 1 ms keeps
both window memberships of the counterexample trades intact, so the
metrics agree. -/
theorem C7_amended_time_translation_witness :
    VolatilityService.calculateVolatility (tradesC7.map (shiftTrade (-1))) 60 nowC7 =
      VolatilityService.calculateVolatility tradesC7 60 nowC7 :=
  C7_amended_time_translation tradesC7 (-1) 60 nowC7 (by decide)

/-- C8: set-then-get semantics of the cache.  A get within the
time-to-live returns the stored value and bumps the hit counter; a get
after the time-to-live returns none, bumps the miss counter and deletes
the entry; and no get on any state ever returns an entry whose age
exceeds its time-to-live. -/
theorem C8_cache_set_get_ttl (V : Type) (s : CacheState V) (key : String) (data : V)
    (ttlSeconds now₁ now₂ : ℤ) :
    (now₂ - now₁ ≤ ttlSeconds * 1000 →
      Cache.get (Cache.set s key data ttlSeconds now₁) key now₂ =
        (some data,
          { Cache.set s key data ttlSeconds now₁ with
            hits := (Cache.set s key data ttlSeconds now₁).hits + 1 })) ∧
    (ttlSeconds * 1000 < now₂ - now₁ →
      Cache.get (Cache.set s key data ttlSeconds now₁) key now₂ =
        (none,
          { Cache.set s key data ttlSeconds now₁ with
            store := fun k =>
              if k = key then none else (Cache.set s key data ttlSeconds now₁).store k
            misses := (Cache.set s key data ttlSeconds now₁).misses + 1 })) ∧
    (∀ (s₂ s₃ : CacheState V) (v : V),
      Cache.get s₂ key now₂ = (some v, s₃) →
      ∃ e, s₂.store key = some e ∧ e.data = v ∧ now₂ - e.timestamp ≤ e.ttl) := by
  refine ⟨?_, ?_, ?_⟩
  · intro hfresh
    simp only [Cache.get, Cache.set, if_pos]
    rw [if_neg (not_lt.mpr hfresh)]
  · intro hexpired
    simp only [Cache.get, Cache.set, if_pos]
    rw [if_pos hexpired]
  · intro s₂ s₃ v hget
    rcases h : s₂.store key with - | e
    · simp [Cache.get, h] at hget
    · by_cases hc : e.ttl < now₂ - e.timestamp
      · simp [Cache.get, h, hc] at hget
      · simp only [Cache.get, h, if_neg hc, Prod.mk.injEq, Option.some.injEq] at hget
        exact ⟨e, rfl, hget.1, not_lt.mp hc⟩

/-- C8, witness: value 42 stored at time 0 with a 30-second time-to-live
is returned by a get at time 10000 ms, with the hit counter bumped. -/
theorem C8_cache_set_get_ttl_witness :
    Cache.get (Cache.set (Cache.empty ℕ) ck 42 30 0) ck 10000 =
      (some 42,
        { Cache.set (Cache.empty ℕ) ck 42 30 0 with
          hits := (Cache.set (Cache.empty ℕ) ck 42 30 0).hits + 1 }) :=
  (C8_cache_set_get_ttl ℕ (Cache.empty ℕ) ck 42 30 0 10000).1 (by norm_num)

/-- C9: the comparison cache key is permutation-invariant: any two
orderings of the same 2–5 market identifiers produce the same key. -/
theorem C9_compare_key_permutation (ids₁ ids₂ : List String) (hperm : ids₁.Perm ids₂)
    (_h2 : 2 ≤ ids₁.length) (_h5 : ids₁.length ≤ 5) :
    CompareRoute.cacheKey ids₁ = CompareRoute.cacheKey ids₂ := by
  have htrans : ∀ (a b c : String),
      (a ≤ b : Bool) → (b ≤ c : Bool) → (a ≤ c : Bool) := by
    intro a b c hab hbc
    simp only [decide_eq_true_eq] at hab hbc ⊢
    exact le_trans hab hbc
  have htotal : ∀ (a b : String), ((a ≤ b : Bool) || (b ≤ a : Bool)) = true := by
    intro a b
    simp only [Bool.or_eq_true, decide_eq_true_eq]
    exact le_total a b
  have hs₁ : List.Sorted (· ≤ ·) (ids₁.mergeSort (fun a b => a ≤ b)) :=
    List.Pairwise.imp (fun hab => of_decide_eq_true hab)
      (List.sorted_mergeSort htrans htotal ids₁)
  have hs₂ : List.Sorted (· ≤ ·) (ids₂.mergeSort (fun a b => a ≤ b)) :=
    List.Pairwise.imp (fun hab => of_decide_eq_true hab)
      (List.sorted_mergeSort htrans htotal ids₂)
  have hp : (ids₁.mergeSort (fun a b => a ≤ b)).Perm (ids₂.mergeSort (fun a b => a ≤ b)) :=
    ((List.mergeSort_perm ids₁ _).trans hperm).trans (List.mergeSort_perm ids₂ _).symm
  unfold CompareRoute.cacheKey
  rw [List.eq_of_perm_of_sorted hp hs₁ hs₂]

/-- C9, witness: the two orderings of the pair of ids produce one key. -/
theorem C9_compare_key_permutation_witness :
    CompareRoute.cacheKey (["b", "a"]) = CompareRoute.cacheKey (["a", "b"]) :=
  C9_compare_key_permutation (["b", "a"]) (["a", "b"])
    (by decide) (by decide) (by decide)

end MarketHealth
